import Mathlib

/-!
Verification of the MAV_Autopilot repository core:
* `src/chp11/path_manager.py` — waypoint path manager (straight-line mode),
* `src/chp4/mav_dynamics.py` — rigid-body RK4 integrator with quaternion attitude.

Python floats are modelled by real numbers; numpy vectors by explicit
component structures; object mutation by state-passing functions that return
the updated objects.  List indexing `a[:, i]` is modelled with `List.getD`
(the claims under study constrain indices to be in bounds).  Where the source
divides by a Euclidean norm, the embedding uses real division, whose value at
a zero denominator is 0 by Lean convention (numpy would produce NaN there;
the degenerate-geometry analysis below points at the zero denominator itself).
-/

open Classical

/-- A 3-component real vector (one numpy column such as `waypoints.ned[:, i]`). -/
structure Vec3 where
  x : ℝ
  y : ℝ
  z : ℝ

namespace Vec3

def zero : Vec3 := ⟨0, 0, 0⟩

noncomputable def add (a b : Vec3) : Vec3 := ⟨a.x + b.x, a.y + b.y, a.z + b.z⟩

noncomputable def sub (a b : Vec3) : Vec3 := ⟨a.x - b.x, a.y - b.y, a.z - b.z⟩

/-- Componentwise division by a scalar, `v / c` in numpy. -/
noncomputable def divc (a : Vec3) (c : ℝ) : Vec3 := ⟨a.x / c, a.y / c, a.z / c⟩

/-- Dot product, `a.T @ b` in the source. -/
noncomputable def dot (a b : Vec3) : ℝ := a.x * b.x + a.y * b.y + a.z * b.z

/-- Euclidean norm, `np.linalg.norm`. -/
noncomputable def norm (a : Vec3) : ℝ := Real.sqrt (a.dot a)

end Vec3

/-- The `msg_path` message: the fields written by `path_manager.line_manager`.
The class itself lives in `messages/msg_path.py`, outside the analysed tree;
only the fields the manager writes are modelled. -/
structure msg_path where
  flag : String
  airspeed : ℝ
  line_origin : Vec3
  line_direction : Vec3
  flag_path_changed : Bool

/-- The waypoint-list message consumed by `path_manager.update`: a path-type
tag, the waypoint count, the NED positions (columns of `waypoints.ned`), the
commanded airspeeds, and the list-changed flag. -/
structure msg_waypoints where
  type : String
  num_waypoints : ℕ
  ned : List Vec3
  airspeed : List ℝ
  flag_waypoints_changed : Bool

/-- The fields of the true-state message read by the path manager
(`state.pn`, `state.pe`, `state.h`). -/
structure StateMsg where
  pn : ℝ
  pe : ℝ
  h : ℝ

/-- The mutable fields of the `path_manager` class. -/
structure path_manager where
  path : msg_path
  ptr_previous : ℕ
  ptr_current : ℕ
  ptr_next : ℕ
  flag_need_new_waypoints : Bool
  num_waypoints : ℕ
  halfspace_n : Vec3
  halfspace_r : Vec3
  manager_state : ℕ

namespace path_manager

/-- Constructor of the `path_manager` class.  The source initialises
`halfspace_n`/`halfspace_r` to `np.inf * ones((3,1))` — infinity has no real
counterpart, so the placeholder vectors are parameters here; both are
overwritten in `line_manager` before any read, and the constructor of
`msg_path` lives outside the analysed tree, so the initial path is a
parameter too. -/
def init (p0 : msg_path) (hn0 hr0 : Vec3) : path_manager :=
  { path := p0
    ptr_previous := 0
    ptr_current := 1
    ptr_next := 2
    flag_need_new_waypoints := true
    num_waypoints := 0
    halfspace_n := hn0
    halfspace_r := hr0
    manager_state := 1 }

/-- Source pointer reset (line 87): set the pointer triple to (0,1,2). -/
def init_pointers (pm : path_manager) : path_manager :=
  { pm with ptr_previous := 0, ptr_current := 1, ptr_next := 2 }

/-- Source `increment_pointers` (line 92): advance all three pointers when
`ptr_current < num_waypoints - 1`, else set `flag_need_new_waypoints`. -/
def increment_pointers (pm : path_manager) : path_manager :=
  if pm.ptr_current < pm.num_waypoints - 1 then
    { pm with ptr_previous := pm.ptr_previous + 1
              ptr_current := pm.ptr_current + 1
              ptr_next := pm.ptr_next + 1 }
  else
    { pm with flag_need_new_waypoints := true }

/-- Source `inHalfSpace` (line 100):
`(pos - halfspace_r).T @ halfspace_n >= 0`. -/
noncomputable def inHalfSpace (pm : path_manager) (pos : Vec3) : Bool :=
  if 0 ≤ (pos.sub pm.halfspace_r).dot pm.halfspace_n then true else false

/-- Source `line_manager` (lines 45–77), translated statement by statement:
normalise the two segment vectors, build the switching half-space, test the
vehicle position against it, write the path message, and on a crossing call
`increment_pointers`. -/
noncomputable def line_manager (pm : path_manager) (waypoints : msg_waypoints)
    (state : StateMsg) : path_manager :=
  let qi0 := (waypoints.ned.getD pm.ptr_next Vec3.zero).sub
      (waypoints.ned.getD pm.ptr_current Vec3.zero)
  let qi := qi0.divc qi0.norm
  let q_prev0 := (waypoints.ned.getD pm.ptr_current Vec3.zero).sub
      (waypoints.ned.getD pm.ptr_previous Vec3.zero)
  let q_prev := q_prev0.divc q_prev0.norm
  let n := q_prev.add qi
  let pm1 := { pm with
    halfspace_n := n.divc n.norm
    halfspace_r := waypoints.ned.getD pm.ptr_current Vec3.zero }
  let p : Vec3 := ⟨state.pn, state.pe, -state.h⟩
  let crossed := pm1.inHalfSpace p
  if crossed then
    increment_pointers { pm1 with path :=
      { flag := "line"
        airspeed := waypoints.airspeed.getD pm.ptr_next 0
        line_origin := waypoints.ned.getD pm.ptr_current Vec3.zero
        line_direction := qi
        flag_path_changed := true } }
  else
    { pm1 with path :=
      { flag := "line"
        airspeed := waypoints.airspeed.getD pm.ptr_current 0
        line_origin := waypoints.ned.getD pm.ptr_previous Vec3.zero
        line_direction := q_prev
        flag_path_changed := false } }

/-- Source `fillet_manager` (line 81): its whole body is `debug = 1`,
so the manager state is returned unchanged. -/
def fillet_manager (pm : path_manager) (_waypoints : msg_waypoints)
    (_radius : ℝ) (_state : StateMsg) : path_manager := pm

/-- Source `dubins_manager` (line 84): its whole body is `debug = 1`,
so the manager state is returned unchanged. -/
def dubins_manager (pm : path_manager) (_waypoints : msg_waypoints)
    (_radius : ℝ) (_state : StateMsg) : path_manager := pm

/-- Source `update` (lines 27–43).  Returns the updated manager, the updated
waypoint message (the source clears `flag_waypoints_changed` on the caller's
object), and the returned `self.path`.  The unknown-type branch of the source
only prints a message, leaving all state untouched. -/
noncomputable def update (pm : path_manager) (waypoints : msg_waypoints)
    (radius : ℝ) (state : StateMsg) :
    path_manager × msg_waypoints × msg_path :=
  let pm1 := if waypoints.flag_waypoints_changed then
      init_pointers { pm with
        num_waypoints := waypoints.num_waypoints
        flag_need_new_waypoints := false }
    else pm
  let ws1 := if waypoints.flag_waypoints_changed then
      { waypoints with flag_waypoints_changed := false }
    else waypoints
  let pm2 :=
    if ws1.type = "straight_line" then pm1.line_manager ws1 state
    else if ws1.type = "fillet" then pm1.fillet_manager ws1 radius state
    else if ws1.type = "dubins" then pm1.dubins_manager ws1 radius state
    else pm1
  (pm2, ws1, pm2.path)

end path_manager

/-- Shorthand for the waypoint column `waypoints.ned[:, i]`. -/
def wp (ws : msg_waypoints) (i : ℕ) : Vec3 := ws.ned.getD i Vec3.zero

/-- The vehicle position vector `p = [pn, pe, -h]` built in `line_manager`. -/
noncomputable def vehicle_pos (st : StateMsg) : Vec3 := ⟨st.pn, st.pe, -st.h⟩

/-- Normalisation of a 3-vector as the spec words it: the vector divided by
its Euclidean norm. -/
noncomputable def normalize_vec (v : Vec3) : Vec3 := v.divc v.norm

/-- The unit vector from `a` to `b`, as the spec words it. -/
noncomputable def unit_from_to (a b : Vec3) : Vec3 := normalize_vec (b.sub a)

/-- The amended pointer invariant: the pointers stay consecutive, the
current pointer stays within the list, and the next pointer can reach at
most `num_waypoints` (one past the last index). -/
def ptr_invariant (pm : path_manager) : Prop :=
  pm.ptr_current = pm.ptr_previous + 1 ∧
  pm.ptr_next = pm.ptr_current + 1 ∧
  pm.ptr_current ≤ pm.num_waypoints - 1 ∧
  pm.ptr_next ≤ pm.num_waypoints

/-- A sequence of `update` calls, threading the manager and the waypoint
message through each call. -/
noncomputable def run_updates : path_manager → msg_waypoints → ℝ →
    List StateMsg → path_manager × msg_waypoints
  | pm, ws, _, [] => (pm, ws)
  | pm, ws, radius, st :: rest =>
      run_updates (pm.update ws radius st).1 ((pm.update ws radius st).2.1)
        radius rest

/-!
Embedding of `src/chp4/mav_dynamics.py`.

The 13-element internal state `_state = [pn, pe, pd, u, v, w, e0, e1, e2, e3,
p, q, r]` becomes a structure with one real field per component; the numpy
vector arithmetic `a + c*b` used by the RK4 step becomes componentwise `add`
and `smul`.  The physical constants imported from
`parameters.aerosonde_parameters` (a file outside the analysed tree) are
abstracted into a parameter record, so all theorems hold for every choice of
constants.  `update_state` in the source first calls
`calcForcesAndMoments(deltas)` — a function that falls off its end (and whose
callee is syntactically malformed, see the lift-coefficient analysis below) —
so the integrator is embedded with the forces/moments vector as an explicit
argument, exactly as `_derivatives` consumes it.
-/

/-- The 13-component state vector `_state`. -/
structure StateVec where
  pn : ℝ
  pe : ℝ
  pd : ℝ
  u : ℝ
  v : ℝ
  w : ℝ
  e0 : ℝ
  e1 : ℝ
  e2 : ℝ
  e3 : ℝ
  p : ℝ
  q : ℝ
  r : ℝ

namespace StateVec

/-- Componentwise vector addition. -/
noncomputable def add (a b : StateVec) : StateVec :=
  ⟨a.pn + b.pn, a.pe + b.pe, a.pd + b.pd, a.u + b.u, a.v + b.v, a.w + b.w,
   a.e0 + b.e0, a.e1 + b.e1, a.e2 + b.e2, a.e3 + b.e3,
   a.p + b.p, a.q + b.q, a.r + b.r⟩

/-- Scalar multiple of a state vector. -/
noncomputable def smul (c : ℝ) (a : StateVec) : StateVec :=
  ⟨c * a.pn, c * a.pe, c * a.pd, c * a.u, c * a.v, c * a.w,
   c * a.e0, c * a.e1, c * a.e2, c * a.e3, c * a.p, c * a.q, c * a.r⟩

end StateVec

/-- The six force/moment components `[fx, fy, fz, l, m, n]`. -/
structure ForcesMoments where
  fx : ℝ
  fy : ℝ
  fz : ℝ
  l : ℝ
  m : ℝ
  n : ℝ

/-- The constants of `parameters.aerosonde_parameters` read by
`_derivatives`; the parameter file is not part of the analysed tree, so they
stay abstract. -/
structure MAVParams where
  mass : ℝ
  Jy : ℝ
  gamma1 : ℝ
  gamma2 : ℝ
  gamma3 : ℝ
  gamma4 : ℝ
  gamma5 : ℝ
  gamma6 : ℝ
  gamma7 : ℝ
  gamma8 : ℝ

/-- Source `_derivatives` (lines 75–131), translated expression by
expression: position kinematics through the quaternion rotation matrix
`Rv_b`, translational dynamics with Coriolis cross terms, quaternion
kinematics, and rotational dynamics with the gamma coupling coefficients. -/
noncomputable def derivatives (P : MAVParams) (state : StateVec)
    (forces_moments : ForcesMoments) : StateVec :=
  let u := state.u
  let v := state.v
  let w := state.w
  let e0 := state.e0
  let e1 := state.e1
  let e2 := state.e2
  let e3 := state.e3
  let p := state.p
  let q := state.q
  let r := state.r
  let fx := forces_moments.fx
  let fy := forces_moments.fy
  let fz := forces_moments.fz
  let l := forces_moments.l
  let m := forces_moments.m
  let n := forces_moments.n
  let pn_dot := (e1^2 + e0^2 - e2^2 - e3^2) * u + 2*(e1*e2 - e3*e0) * v
      + 2*(e1*e3 + e2*e0) * w
  let pe_dot := 2*(e1*e2 + e3*e0) * u + (e2^2 + e0^2 - e1^2 - e3^2) * v
      + 2*(e2*e3 - e1*e0) * w
  let pd_dot := 2*(e1*e3 - e2*e0) * u + 2*(e2*e3 + e1*e0) * v
      + (e3^2 + e0^2 - e1^2 - e2^2) * w
  let u_dot := r*v - q*w + 1/P.mass * fx
  let v_dot := p*w - r*u + 1/P.mass * fy
  let w_dot := q*u - p*v + 1/P.mass * fz
  let e0_dot := (-p * e1 - q * e2 - r * e3) * 0.5
  let e1_dot := (p * e0 + r * e2 - q * e3) * 0.5
  let e2_dot := (q * e0 - r * e1 + p * e3) * 0.5
  let e3_dot := (r * e0 + q * e1 - p * e2) * 0.5
  let p_dot := P.gamma1 * p * q - P.gamma2 * q * r + P.gamma3 * l + P.gamma4 * n
  let q_dot := P.gamma5 * p * r - P.gamma6 * (p^2 - r^2) + 1/P.Jy * m
  let r_dot := P.gamma7 * p * q - P.gamma1 * q * r + P.gamma4 * l + P.gamma8 * n
  ⟨pn_dot, pe_dot, pd_dot, u_dot, v_dot, w_dot,
   e0_dot, e1_dot, e2_dot, e3_dot, p_dot, q_dot, r_dot⟩

/-- The Runge–Kutta part of `update_state` (source lines 48–54):
`k1..k4` and `self._state += time_step/6 * (k1 + 2*k2 + 2*k3 + k4)`. -/
noncomputable def rk4_step (P : MAVParams) (time_step : ℝ) (s : StateVec)
    (forces_moments : ForcesMoments) : StateVec :=
  let k1 := derivatives P s forces_moments
  let k2 := derivatives P (s.add (StateVec.smul (time_step/2) k1)) forces_moments
  let k3 := derivatives P (s.add (StateVec.smul (time_step/2) k2)) forces_moments
  let k4 := derivatives P (s.add (StateVec.smul time_step k3)) forces_moments
  s.add (StateVec.smul (time_step/6)
    (k1.add ((StateVec.smul 2 k2).add ((StateVec.smul 2 k3).add k4))))

/-- The quaternion renormalisation part of `update_state` (source lines
56–65): divide components 6..9 by their Euclidean norm. -/
noncomputable def quat_normalize (s : StateVec) : StateVec :=
  let normE := Real.sqrt (s.e0^2 + s.e1^2 + s.e2^2 + s.e3^2)
  { s with e0 := s.e0 / normE, e1 := s.e1 / normE
           e2 := s.e2 / normE, e3 := s.e3 / normE }

/-- Source `update_state` (lines 39–65): one RK4 step followed by quaternion
renormalisation.  (The subsequent `updateVelocityData` has body `debug = 1`
and `_update_msg_true_state` only writes the derived message, so neither
touches `_state`.) -/
noncomputable def update_state (P : MAVParams) (time_step : ℝ) (s : StateVec)
    (forces_moments : ForcesMoments) : StateVec :=
  quat_normalize (rk4_step P time_step s forces_moments)

/-- Squared Euclidean norm of the attitude quaternion, state components 6..9. -/
noncomputable def quatNormSq (s : StateVec) : ℝ :=
  s.e0^2 + s.e1^2 + s.e2^2 + s.e3^2

/-- Euclidean norm of the attitude quaternion, state components 6..9. -/
noncomputable def quatNorm (s : StateVec) : ℝ := Real.sqrt (quatNormSq s)

/-- The classic explicit RK4 scheme as the spec words it: evaluate the
derivative `f` at the state, at two midpoint estimates, and at an endpoint
estimate, then combine with weights (1,2,2,1)/6 scaled by the timestep.
Stated independently of the source for comparison with `rk4_step`. -/
noncomputable def rk4_scheme (f : StateVec → StateVec) (h : ℝ) (s : StateVec) :
    StateVec :=
  let k1 := f s
  let k2 := f (s.add (StateVec.smul (h/2) k1))
  let k3 := f (s.add (StateVec.smul (h/2) k2))
  let k4 := f (s.add (StateVec.smul h k3))
  s.add (StateVec.smul (h/6)
    ((k1.add k4).add (StateVec.smul 2 (k2.add k3))))

/-!
The stall-blending lift model of `calcLongitudinalForcesAndMoments`
(source lines 156–172).  Source lines 167–168 and 170 are syntactically
malformed Python (`/..`, the token sequence `(alpha 0 alpha0)`, a trailing
`+ ..`), so the module cannot even be imported.  The σ formula below follows
the specification (§4.1), which is the only coherent statement of it; the
"code" variant of the blended coefficient follows the parseable structure of
source line 170, whose linear term reads `MAV.C_L_0 + MAV.C_L_alpha` with no
`* alpha` factor.
-/

/-- The sigmoid blending factor σ(α) as §4.1 states it:
`[1 + e^(−M(α−α0)) + e^(M(α+α0))] / [(1+e^(−M(α−α0)))·(1+e^(M(α+α0)))]`.
Modelled from the spec because source lines 167–168 are malformed. -/
noncomputable def sigma_spec (M alpha0 alpha : ℝ) : ℝ :=
  (1 + Real.exp (-M * (alpha - alpha0)) + Real.exp (M * (alpha + alpha0))) /
  ((1 + Real.exp (-M * (alpha - alpha0))) * (1 + Real.exp (M * (alpha + alpha0))))

/-- The blended lift coefficient as the spec states it:
`(1−σ)·(C_L0 + C_Lα·α) + σ·(2·sign(α)·sin²α·cosα)`. -/
noncomputable def CL_blended_spec (sigma C_L_0 C_L_alpha alpha : ℝ) : ℝ :=
  (1 - sigma) * (C_L_0 + C_L_alpha * alpha) +
    sigma * (2 * Real.sign alpha * Real.sin alpha ^ 2 * Real.cos alpha)

/-- The blended lift coefficient as source line 170 writes it: the linear
term is `(1 - sigma_alpha) * (MAV.C_L_0 + MAV.C_L_alpha)`, missing the
`* alpha` factor of the specified formula. -/
noncomputable def CL_blended_code (sigma C_L_0 C_L_alpha alpha : ℝ) : ℝ :=
  (1 - sigma) * (C_L_0 + C_L_alpha) +
    sigma * (2 * Real.sign alpha * Real.sin alpha ^ 2 * Real.cos alpha)

/-!
Concrete test fixtures used by the witnesses and counterexamples below.
-/

/-- A concrete placeholder path message (the real initial `msg_path` is
built outside the analysed tree and is never read before being overwritten). -/
def path_zero : msg_path := ⟨"", 0, Vec3.zero, Vec3.zero, false⟩

/-- A freshly constructed manager. -/
def pm_fresh : path_manager := path_manager.init path_zero Vec3.zero Vec3.zero

/-- A manager mid-flight: pointers (0,1,2) over a three-waypoint list. -/
def pm_ready : path_manager :=
  ⟨path_zero, 0, 1, 2, false, 3, Vec3.zero, Vec3.zero, 1⟩

/-- Three collinear waypoints along north, list-changed flag set. -/
def ws_line3 : msg_waypoints :=
  ⟨"straight_line", 3, [⟨0,0,0⟩, ⟨1,0,0⟩, ⟨2,0,0⟩], [20, 20, 20], true⟩

/-- The same three waypoints with the list-changed flag clear. -/
def ws_line3_steady : msg_waypoints :=
  ⟨"straight_line", 3, [⟨0,0,0⟩, ⟨1,0,0⟩, ⟨2,0,0⟩], [20, 20, 20], false⟩

/-- A waypoint list carrying the unimplemented `fillet` type tag. -/
def ws_fillet : msg_waypoints :=
  ⟨"fillet", 3, [⟨0,0,0⟩, ⟨1,0,0⟩, ⟨2,0,0⟩], [20, 20, 20], false⟩

/-- The spec's degenerate example: the first two waypoints coincide. -/
def ws_degenerate : msg_waypoints :=
  ⟨"straight_line", 3, [⟨0,0,0⟩, ⟨0,0,0⟩, ⟨10,0,0⟩], [20, 20, 20], true⟩

/-!
Theorems.
-/

theorem real_sqrt_four : Real.sqrt 4 = 2 := by
  rw [show (4:ℝ) = 2^2 by norm_num, Real.sqrt_sq (by norm_num : (0:ℝ) ≤ 2)]

theorem real_sqrt_hundred : Real.sqrt 100 = 10 := by
  rw [show (100:ℝ) = 10^2 by norm_num, Real.sqrt_sq (by norm_num : (0:ℝ) ≤ 10)]

/-- Regrouping of the weighted RK4 sum `k1 + 2·k2 + 2·k3 + k4`. -/
theorem rk4_comb_group (a k1 k2 k3 k4 : StateVec) (c : ℝ) :
    a.add (StateVec.smul c (k1.add ((StateVec.smul 2 k2).add
      ((StateVec.smul 2 k3).add k4)))) =
    a.add (StateVec.smul c ((k1.add k4).add (StateVec.smul 2 (k2.add k3)))) := by
  simp only [StateVec.add, StateVec.smul, StateVec.mk.injEq]
  refine ⟨?_, ?_, ?_, ?_, ?_, ?_, ?_, ?_, ?_, ?_, ?_, ?_, ?_⟩ <;> ring

/-- Claim C6: every integration step of `update_state` evaluates the state
derivative `_derivatives` four times — at the current state, at the two
midpoint estimates `state + Ts/2·k1` and `state + Ts/2·k2`, and at the
endpoint estimate `state + Ts·k3` — and advances the state by
`Ts/6 · (k1 + 2·k2 + 2·k3 + k4)`, the standard RK4 combination (followed by
the quaternion renormalisation of source lines 56–65). -/
theorem update_state_is_rk4 (P : MAVParams) (Ts : ℝ) (s : StateVec)
    (fm : ForcesMoments) :
    update_state P Ts s fm =
      quat_normalize (rk4_scheme (fun x => derivatives P x fm) Ts s) := by
  unfold update_state rk4_step rk4_scheme
  exact congrArg quat_normalize (rk4_comb_group _ _ _ _ _ _)

/-- Claim C1: whenever the quaternion produced by the RK4 update is nonzero
(all real-valued inputs being the images of finite floats), the quaternion
stored in state components 6..9 after `update_state` has Euclidean norm
exactly 1 — in particular within the 1e-9 tolerance — because the step
divides all four components by their common Euclidean norm. -/
theorem update_state_quat_norm_one (P : MAVParams) (Ts : ℝ) (s : StateVec)
    (fm : ForcesMoments) (h : quatNormSq (rk4_step P Ts s fm) ≠ 0) :
    quatNorm (update_state P Ts s fm) = 1 := by
  unfold update_state
  set s1 := rk4_step P Ts s fm with hs1
  have hS : 0 ≤ quatNormSq s1 := by
    unfold quatNormSq; positivity
  have hpos : 0 < quatNormSq s1 := lt_of_le_of_ne hS (Ne.symm h)
  have hsq : Real.sqrt (quatNormSq s1) ^ 2 = quatNormSq s1 := Real.sq_sqrt hS
  have hne : Real.sqrt (quatNormSq s1) ≠ 0 := ne_of_gt (Real.sqrt_pos.mpr hpos)
  unfold quatNorm quat_normalize
  simp only [quatNormSq] at hsq hpos ⊢
  rw [div_pow, div_pow, div_pow, div_pow, div_add_div_same, div_add_div_same,
    div_add_div_same, hsq]
  rw [div_self (by exact ne_of_gt hpos), Real.sqrt_one]

/-- Witness for claim C1: a hovering state with identity quaternion, zero
rates and zero forces keeps a nonzero integrated quaternion, and the
renormalised quaternion has norm 1. -/
theorem update_state_quat_norm_one_witness :
    quatNormSq (rk4_step ⟨1, 1, 0, 0, 0, 0, 0, 0, 0, 0⟩ 1
        ⟨0, 0, 0, 0, 0, 0, 1, 0, 0, 0, 0, 0, 0⟩ ⟨0, 0, 0, 0, 0, 0⟩) ≠ 0 ∧
    quatNorm (update_state ⟨1, 1, 0, 0, 0, 0, 0, 0, 0, 0⟩ 1
        ⟨0, 0, 0, 0, 0, 0, 1, 0, 0, 0, 0, 0, 0⟩ ⟨0, 0, 0, 0, 0, 0⟩) = 1 := by
  have h : quatNormSq (rk4_step ⟨1, 1, 0, 0, 0, 0, 0, 0, 0, 0⟩ 1
      ⟨0, 0, 0, 0, 0, 0, 1, 0, 0, 0, 0, 0, 0⟩ ⟨0, 0, 0, 0, 0, 0⟩) ≠ 0 := by
    norm_num [quatNormSq, rk4_step, derivatives, StateVec.add, StateVec.smul]
  exact ⟨h, update_state_quat_norm_one _ _ _ _ h⟩

/-- Projection fact: `increment_pointers` never rewrites the path message. -/
theorem increment_pointers_path (pm : path_manager) :
    (pm.increment_pointers).path = pm.path := by
  unfold path_manager.increment_pointers; split <;> rfl

/-- Projection fact: `increment_pointers` never rewrites the stored normal. -/
theorem increment_pointers_halfspace_n (pm : path_manager) :
    (pm.increment_pointers).halfspace_n = pm.halfspace_n := by
  unfold path_manager.increment_pointers; split <;> rfl

/-- Projection fact: `increment_pointers` never rewrites the stored
reference point. -/
theorem increment_pointers_halfspace_r (pm : path_manager) :
    (pm.increment_pointers).halfspace_r = pm.halfspace_r := by
  unfold path_manager.increment_pointers; split <;> rfl

/-- Claim C5: in straight-line mode the switching half-space has normal
`normalize(q_prev + q_next)` and reference point `waypoint[current]`, and the
crossing decision — observable as the emitted changed flag — is exactly
`dot(vehicle_position − reference, normal) ≥ 0`, the boundary `dot = 0`
counting as crossed. -/
theorem line_manager_halfspace_correct (pm : path_manager)
    (ws : msg_waypoints) (st : StateMsg) :
    (pm.line_manager ws st).halfspace_n =
      normalize_vec ((unit_from_to (wp ws pm.ptr_previous) (wp ws pm.ptr_current)).add
        (unit_from_to (wp ws pm.ptr_current) (wp ws pm.ptr_next))) ∧
    (pm.line_manager ws st).halfspace_r = wp ws pm.ptr_current ∧
    ((pm.line_manager ws st).path.flag_path_changed = true ↔
      ((vehicle_pos st).sub (wp ws pm.ptr_current)).dot
        (normalize_vec ((unit_from_to (wp ws pm.ptr_previous) (wp ws pm.ptr_current)).add
          (unit_from_to (wp ws pm.ptr_current) (wp ws pm.ptr_next)))) ≥ 0) := by
  simp only [path_manager.line_manager, path_manager.inHalfSpace,
    normalize_vec, unit_from_to, wp, vehicle_pos, ge_iff_le]
  split_ifs with hd <;>
    simp_all [increment_pointers_path, increment_pointers_halfspace_n,
      increment_pointers_halfspace_r]

/-- Claim C10: when the incoming waypoint message has its list-changed flag
set, `update` writes that caller-owned flag back to false. -/
theorem update_clears_waypoints_changed_flag (pm : path_manager)
    (ws : msg_waypoints) (radius : ℝ) (st : StateMsg)
    (h : ws.flag_waypoints_changed = true) :
    ((pm.update ws radius st).2.1).flag_waypoints_changed = false := by
  simp only [path_manager.update, h, if_true]

/-- Witness for claim C10 at a concrete waypoint message whose
list-changed flag is set. -/
theorem update_clears_waypoints_changed_flag_witness :
    ws_line3.flag_waypoints_changed = true ∧
    ((pm_fresh.update ws_line3 0 ⟨5, 0, 0⟩).2.1).flag_waypoints_changed
      = false :=
  ⟨rfl, update_clears_waypoints_changed_flag _ _ _ _ rfl⟩

/-- Claim C7, against the code: a `fillet`-typed waypoint list makes
`update` a silent no-op returning the stale path — no failure of any kind is
produced (`dubins` and unknown tags behave the same way; this contradicts the
claimed UnsupportedPathType failure). -/
theorem unsupported_type_silent_noop (pm : path_manager)
    (ws : msg_waypoints) (radius : ℝ) (st : StateMsg)
    (hflag : ws.flag_waypoints_changed = false) (htype : ws.type = "fillet") :
    pm.update ws radius st = (pm, ws, pm.path) := by
  simp [path_manager.update, path_manager.fillet_manager, hflag, htype]

/-- Witness for the fillet no-op fact at a concrete waypoint list. -/
theorem unsupported_type_silent_noop_witness :
    (ws_fillet.flag_waypoints_changed = false ∧ ws_fillet.type = "fillet") ∧
    pm_fresh.update ws_fillet 0 ⟨5, 0, 0⟩ = (pm_fresh, ws_fillet, pm_fresh.path) :=
  ⟨⟨rfl, rfl⟩, unsupported_type_silent_noop _ _ _ _ rfl rfl⟩

/-- Counterexample to claim C2 as stated: on the three-waypoint list
(0,0,0),(1,0,0),(2,0,0) with the vehicle at (5,0,0), past the switching
plane, the very first `update` advances the pointers to (1,2,3), so
`ptr_next = 3 = num_waypoints` exceeds `num_waypoints - 1 = 2`. -/
theorem ptr_next_exceeds_bound_counterexample :
    (pm_fresh.update ws_line3 0 ⟨5, 0, 0⟩).1.ptr_next = 3 ∧
    (pm_fresh.update ws_line3 0 ⟨5, 0, 0⟩).1.num_waypoints = 3 ∧
    ¬ ((pm_fresh.update ws_line3 0 ⟨5, 0, 0⟩).1.ptr_next ≤
      (pm_fresh.update ws_line3 0 ⟨5, 0, 0⟩).1.num_waypoints - 1) := by
  norm_num [pm_fresh, ws_line3, path_zero, path_manager.update,
    path_manager.line_manager, path_manager.inHalfSpace,
    path_manager.increment_pointers, path_manager.init_pointers,
    path_manager.init, Vec3.sub, Vec3.add, Vec3.divc, Vec3.dot, Vec3.norm,
    Vec3.zero, List.getD, real_sqrt_four]

/-- Pointer behaviour of `line_manager`: it either leaves the pointer triple
unchanged or, when the current pointer is strictly below
`num_waypoints - 1`, advances all three by one; it never touches
`num_waypoints`. -/
theorem line_manager_ptr_cases (pm : path_manager) (ws : msg_waypoints)
    (st : StateMsg) :
    ((pm.line_manager ws st).num_waypoints = pm.num_waypoints) ∧
    (((pm.line_manager ws st).ptr_previous = pm.ptr_previous ∧
      (pm.line_manager ws st).ptr_current = pm.ptr_current ∧
      (pm.line_manager ws st).ptr_next = pm.ptr_next) ∨
     (pm.ptr_current < pm.num_waypoints - 1 ∧
      (pm.line_manager ws st).ptr_previous = pm.ptr_previous + 1 ∧
      (pm.line_manager ws st).ptr_current = pm.ptr_current + 1 ∧
      (pm.line_manager ws st).ptr_next = pm.ptr_next + 1)) := by
  simp only [path_manager.line_manager]
  split_ifs with hcross
  · simp only [path_manager.increment_pointers]
    split_ifs with hinc
    · exact ⟨rfl, Or.inr ⟨hinc, rfl, rfl, rfl⟩⟩
    · exact ⟨rfl, Or.inl ⟨rfl, rfl, rfl⟩⟩
  · exact ⟨rfl, Or.inl ⟨rfl, rfl, rfl⟩⟩

/-- One `update` call on an unchanged waypoint list preserves the pointer
invariant, never decreases any pointer, and leaves `num_waypoints` and the
waypoint message untouched. -/
theorem update_step_ptrs (pm : path_manager) (ws : msg_waypoints)
    (radius : ℝ) (st : StateMsg)
    (hflag : ws.flag_waypoints_changed = false)
    (hinv : ptr_invariant pm) :
    ptr_invariant (pm.update ws radius st).1 ∧
    pm.ptr_previous ≤ (pm.update ws radius st).1.ptr_previous ∧
    pm.ptr_current ≤ (pm.update ws radius st).1.ptr_current ∧
    pm.ptr_next ≤ (pm.update ws radius st).1.ptr_next ∧
    (pm.update ws radius st).1.num_waypoints = pm.num_waypoints ∧
    (pm.update ws radius st).2.1 = ws := by
  obtain ⟨h1, h2, h3, h4⟩ := hinv
  have hws : (pm.update ws radius st).2.1 = ws := by
    simp [path_manager.update, hflag]
  have hupd1 : (pm.update ws radius st).1 =
      (if ws.type = "straight_line" then pm.line_manager ws st
       else if ws.type = "fillet" then pm.fillet_manager ws radius st
       else if ws.type = "dubins" then pm.dubins_manager ws radius st
       else pm) := by
    simp [path_manager.update, hflag]
  rw [hupd1]
  refine ⟨?_, ?_, ?_, ?_, ?_, hws⟩ <;> split_ifs with ht1 ht2 ht3
  all_goals
    try (obtain ⟨hn, hc⟩ := line_manager_ptr_cases pm ws st;
         rcases hc with ⟨e1, e2, e3⟩ | ⟨hlt, e1, e2, e3⟩ <;>
           simp only [ptr_invariant, hn, e1, e2, e3] <;> omega)
  all_goals
    try simp only [ptr_invariant, path_manager.fillet_manager,
      path_manager.dubins_manager]
  all_goals omega

/-- Claim C2, amended: over any sequence of `update` calls on a fixed
waypoint list (list-changed flag clear), the consecutive-pointer invariant
`previous + 1 = current`, `current + 1 = next`, `current ≤ num_waypoints - 1`
and `next ≤ num_waypoints` is preserved, every pointer is non-decreasing, and
the stored waypoint count and the waypoint message never change (pointers are
reset to (0,1,2) only by the list-changed branch of `update`). -/
theorem run_updates_ptr_invariant (pm : path_manager) (ws : msg_waypoints)
    (radius : ℝ) (sts : List StateMsg)
    (hflag : ws.flag_waypoints_changed = false)
    (hinv : ptr_invariant pm) :
    ptr_invariant (run_updates pm ws radius sts).1 ∧
    pm.ptr_previous ≤ (run_updates pm ws radius sts).1.ptr_previous ∧
    pm.ptr_current ≤ (run_updates pm ws radius sts).1.ptr_current ∧
    pm.ptr_next ≤ (run_updates pm ws radius sts).1.ptr_next ∧
    (run_updates pm ws radius sts).1.num_waypoints = pm.num_waypoints ∧
    (run_updates pm ws radius sts).2 = ws := by
  induction sts generalizing pm with
  | nil => exact ⟨hinv, le_refl _, le_refl _, le_refl _, rfl, rfl⟩
  | cons st rest ih =>
    obtain ⟨hinv1, hm1, hm2, hm3, hn1, hws1⟩ :=
      update_step_ptrs pm ws radius st hflag hinv
    have hrec := ih (pm.update ws radius st).1 hinv1
    rw [run_updates, hws1]
    obtain ⟨ha, hb, hc, hd, he, hf⟩ := hrec
    exact ⟨ha, le_trans hm1 hb, le_trans hm2 hc, le_trans hm3 hd,
      he.trans hn1, hf⟩

/-- Witness for (amended) claim C2: a manager holding pointers (0,1,2) over
the fixed three-waypoint straight line, run for one update with the vehicle
at (5,0,0); the invariant and the monotonicity hold afterwards. -/
theorem run_updates_ptr_invariant_witness :
    (ws_line3_steady.flag_waypoints_changed = false ∧ ptr_invariant pm_ready) ∧
    ptr_invariant (run_updates pm_ready ws_line3_steady 0 [⟨5, 0, 0⟩]).1 := by
  have hinv : ptr_invariant pm_ready := by
    refine ⟨rfl, rfl, ?_, ?_⟩ <;> norm_num [pm_ready]
  exact ⟨⟨rfl, hinv⟩,
    (run_updates_ptr_invariant _ _ 0 [⟨5, 0, 0⟩] rfl hinv).1⟩

/-- The half-space membership test holds exactly when the dot product against
the stored normal is non-negative (the boundary counts as inside). -/
theorem inHalfSpace_iff (pm : path_manager) (pos : Vec3) :
    pm.inHalfSpace pos = true ↔
      0 ≤ (pos.sub pm.halfspace_r).dot pm.halfspace_n := by
  unfold path_manager.inHalfSpace
  split_ifs with h <;> simp [h]

/-- Claim C4: in straight-line mode with distinct adjacent waypoints and
in-bounds pointers, a crossed half-space test makes `line_manager` emit
origin `waypoint[current]`, direction the unit vector toward
`waypoint[next]`, the next waypoint's airspeed, and a set changed flag, and
then advance the pointers by one exactly when
`ptr_current < num_waypoints − 1` (otherwise it sets the need-new-waypoints
flag and holds the pointers); a failed test emits origin
`waypoint[previous]`, direction the unit vector toward `waypoint[current]`,
the current waypoint's airspeed, and a cleared changed flag. -/
theorem line_manager_output_correct (pm : path_manager) (ws : msg_waypoints)
    (st : StateMsg)
    (hprev : pm.ptr_previous < ws.ned.length)
    (hcur : pm.ptr_current < ws.ned.length)
    (hnext : pm.ptr_next < ws.ned.length)
    (hne1 : wp ws pm.ptr_current ≠ wp ws pm.ptr_next)
    (hne2 : wp ws pm.ptr_previous ≠ wp ws pm.ptr_current) :
    ((((vehicle_pos st).sub (wp ws pm.ptr_current)).dot
        (normalize_vec ((unit_from_to (wp ws pm.ptr_previous) (wp ws pm.ptr_current)).add
          (unit_from_to (wp ws pm.ptr_current) (wp ws pm.ptr_next)))) ≥ 0) →
      (pm.line_manager ws st).path.line_origin = wp ws pm.ptr_current ∧
      (pm.line_manager ws st).path.line_direction =
        unit_from_to (wp ws pm.ptr_current) (wp ws pm.ptr_next) ∧
      (pm.line_manager ws st).path.airspeed = ws.airspeed.getD pm.ptr_next 0 ∧
      (pm.line_manager ws st).path.flag_path_changed = true ∧
      (pm.ptr_current < pm.num_waypoints - 1 →
        (pm.line_manager ws st).ptr_previous = pm.ptr_previous + 1 ∧
        (pm.line_manager ws st).ptr_current = pm.ptr_current + 1 ∧
        (pm.line_manager ws st).ptr_next = pm.ptr_next + 1 ∧
        (pm.line_manager ws st).flag_need_new_waypoints =
          pm.flag_need_new_waypoints) ∧
      (¬ pm.ptr_current < pm.num_waypoints - 1 →
        (pm.line_manager ws st).flag_need_new_waypoints = true ∧
        (pm.line_manager ws st).ptr_previous = pm.ptr_previous ∧
        (pm.line_manager ws st).ptr_current = pm.ptr_current ∧
        (pm.line_manager ws st).ptr_next = pm.ptr_next)) ∧
    (¬ (((vehicle_pos st).sub (wp ws pm.ptr_current)).dot
        (normalize_vec ((unit_from_to (wp ws pm.ptr_previous) (wp ws pm.ptr_current)).add
          (unit_from_to (wp ws pm.ptr_current) (wp ws pm.ptr_next)))) ≥ 0) →
      (pm.line_manager ws st).path.line_origin = wp ws pm.ptr_previous ∧
      (pm.line_manager ws st).path.line_direction =
        unit_from_to (wp ws pm.ptr_previous) (wp ws pm.ptr_current) ∧
      (pm.line_manager ws st).path.airspeed = ws.airspeed.getD pm.ptr_current 0 ∧
      (pm.line_manager ws st).path.flag_path_changed = false) := by
  simp only [path_manager.line_manager, inHalfSpace_iff, wp,
    vehicle_pos, normalize_vec, unit_from_to, ge_iff_le]
  split_ifs with hd
  · refine ⟨fun _ => ⟨?_, ?_, ?_, ?_, fun hc => ?_, fun hc => ?_⟩,
      fun hnd => absurd hd hnd⟩
    · rw [increment_pointers_path]
    · rw [increment_pointers_path]
    · rw [increment_pointers_path]
    · rw [increment_pointers_path]
    · simp only [path_manager.increment_pointers]
      split_ifs
      exact ⟨rfl, rfl, rfl, rfl⟩
    · simp only [path_manager.increment_pointers]
      split_ifs
      exact ⟨rfl, rfl, rfl, rfl⟩
  · exact ⟨fun hd2 => absurd hd2 hd, fun _ => ⟨rfl, rfl, rfl, rfl⟩⟩

/-- Witness for claim C4: on the straight line (0,0,0),(1,0,0),(2,0,0) with
pointers (0,1,2) and the vehicle at (5,0,0), beyond the switching plane, the
crossing branch fires: origin (1,0,0), direction toward (2,0,0), airspeed of
the next waypoint, changed flag set, and the pointers advance to (1,2,3). -/
theorem line_manager_output_correct_witness :
    (0 ≤ ((vehicle_pos ⟨5, 0, 0⟩).sub (wp ws_line3_steady 1)).dot
      (normalize_vec ((unit_from_to (wp ws_line3_steady 0)
          (wp ws_line3_steady 1)).add
        (unit_from_to (wp ws_line3_steady 1) (wp ws_line3_steady 2))))) ∧
    (pm_ready.line_manager ws_line3_steady ⟨5, 0, 0⟩).path.line_origin
      = ⟨1, 0, 0⟩ ∧
    (pm_ready.line_manager ws_line3_steady ⟨5, 0, 0⟩).path.line_direction
      = unit_from_to ⟨1, 0, 0⟩ ⟨2, 0, 0⟩ ∧
    (pm_ready.line_manager ws_line3_steady ⟨5, 0, 0⟩).path.airspeed = 20 ∧
    (pm_ready.line_manager ws_line3_steady ⟨5, 0, 0⟩).path.flag_path_changed
      = true ∧
    (pm_ready.line_manager ws_line3_steady ⟨5, 0, 0⟩).ptr_previous = 1 ∧
    (pm_ready.line_manager ws_line3_steady ⟨5, 0, 0⟩).ptr_current = 2 ∧
    (pm_ready.line_manager ws_line3_steady ⟨5, 0, 0⟩).ptr_next = 3 := by
  have hd : (0:ℝ) ≤ ((vehicle_pos ⟨5, 0, 0⟩).sub (wp ws_line3_steady 1)).dot
      (normalize_vec ((unit_from_to (wp ws_line3_steady 0)
          (wp ws_line3_steady 1)).add
        (unit_from_to (wp ws_line3_steady 1) (wp ws_line3_steady 2)))) := by
    norm_num [ws_line3_steady, vehicle_pos, wp, normalize_vec, unit_from_to,
      Vec3.sub, Vec3.add, Vec3.divc, Vec3.dot, Vec3.norm, Vec3.zero,
      List.getD, real_sqrt_four]
  have h := line_manager_output_correct pm_ready ws_line3_steady ⟨5, 0, 0⟩
    (by norm_num [pm_ready, ws_line3_steady])
    (by norm_num [pm_ready, ws_line3_steady])
    (by norm_num [pm_ready, ws_line3_steady])
    (by norm_num [pm_ready, ws_line3_steady, wp, List.getD, Vec3.mk.injEq])
    (by norm_num [pm_ready, ws_line3_steady, wp, List.getD, Vec3.mk.injEq])
  obtain ⟨h1, h2, h3, h4, h5, h6⟩ := h.1 hd
  obtain ⟨p1, p2, p3, p4⟩ := h5 (by norm_num [pm_ready])
  exact ⟨hd, h1, h2, h3, h4, p1, p2, p3⟩

/-- Claim C3, against the code: on the spec's degenerate example
(0,0,0),(0,0,0),(10,0,0) — the first two waypoints coincide — the
previous-segment vector has zero Euclidean norm, yet `update` raises
nothing: the source divides by that zero norm unconditionally (numpy yields
a NaN direction; real division by zero yields the zero vector here) and
still returns a path whose direction is the degenerate quotient. -/
theorem degenerate_waypoints_zero_divisor :
    ((wp ws_degenerate 1).sub (wp ws_degenerate 0)).norm = 0 ∧
    (pm_fresh.update ws_degenerate 0 ⟨-5, 0, 0⟩).2.2.line_direction
      = ⟨0, 0, 0⟩ := by
  constructor
  · norm_num [ws_degenerate, wp, List.getD, Vec3.sub, Vec3.norm, Vec3.dot]
  · norm_num [pm_fresh, ws_degenerate, path_zero, path_manager.update,
      path_manager.line_manager, path_manager.inHalfSpace,
      path_manager.increment_pointers, path_manager.init_pointers,
      path_manager.init, Vec3.sub, Vec3.add, Vec3.divc, Vec3.dot, Vec3.norm,
      Vec3.zero, List.getD, real_sqrt_hundred, Vec3.mk.injEq]

/-- Claim C9 counter-evidence: with σ taken at M = 0, α0 = 0 (where σ = 3/4
exactly), C_L0 = 0, C_Lα = 4 and α = 2, the coefficient written on source
line 170 differs from the specified blended coefficient — the source omits
the `· α` factor in the linear term. -/
theorem lift_coefficient_mismatch :
    CL_blended_code (sigma_spec 0 0 2) 0 4 2 ≠
      CL_blended_spec (sigma_spec 0 0 2) 0 4 2 := by
  have hs : sigma_spec 0 0 2 = 3/4 := by
    norm_num [sigma_spec, Real.exp_zero]
  rw [CL_blended_code, CL_blended_spec, hs]
  intro h
  have h2 := h
  ring_nf at h2
  linarith
